import Mathlib

/-!
Shallow embedding of the Event Summarizer of `3_users_profil.ipynb`
(`compute_stats_by_user` and the record construction around it), together
with theorems settling the spec's claims about it.

The Python reference is:

```
def compute_stats_by_user(tracks):
    mcount = morning = afternoon = evening = night = 0
    tracklist = []
    for t in tracks:
        trackid, dtime, mobile, zip = t
        if trackid not in tracklist:
            tracklist.append(trackid)
        d,t = dtime.split(" ")
        hour_of_day = int(t.split(":")[0])
        mcount += mobile
        if (hour_of_day < 5):
            night += 1
        elif (hour_of_day < 12):
            morning += 1
        elif (hour_of_day < 17):
            afternoon += 1
        elif (hour_of_day < 22):
            evening += 1
        else:
            night += 1
        return [len(tracklist), morning, afternoon, evening, night, mcount]
```

Note the `return` statement sits INSIDE the `for` loop, at the end of its
body: the function returns after its first iteration, and falls through
(returning Python `None`) when `tracks` is empty.  The embedding keeps this
behaviour exactly.
-/

/-- One event record, as built by `make_tracks_kv`:
`[int(line[2]), line[3], int(line[4]), line[5]]`, i.e.
(track identifier, timestamp string, mobile flag, zip code). -/
structure Track where
  trackid : Int
  dtime : String
  mobile : Int
  zip : String
deriving DecidableEq, Repr

/-- The only exception the embedded code can raise: Python `ValueError`,
from tuple unpacking of `dtime.split(" ")` or from `int(...)`. -/
inductive PyError where
  | valueError
deriving DecidableEq, Repr

/-- Python `str.split(sep)` on a single-character separator, over the
character list of the string: `"".split(s) = [""]`, `",".split(",") = ["",""]`. -/
def pySplit (sep : Char) : List Char → List (List Char)
  | [] => [[]]
  | c :: rest =>
    match pySplit sep rest with
    | [] => if c = sep then [[], [c]] else [[c]]
    | w :: ws => if c = sep then [] :: w :: ws else (c :: w) :: ws

/-- Digit-string accumulator for `pyInt`. -/
def pyDigitsAux : List Char → Nat → Option Nat
  | [], acc => some acc
  | c :: rest, acc =>
    if c.isDigit then pyDigitsAux rest (acc * 10 + (c.toNat - ('0').toNat))
    else none

/-- Nonempty digit string to a natural number. -/
def pyDigits : List Char → Option Nat
  | [] => none
  | cs => pyDigitsAux cs 0

/-- Python `int(str)` on an optionally signed decimal literal. -/
def pyInt : List Char → Option Int
  | '-' :: rest => (pyDigits rest).map (fun n => -(n : Int))
  | '+' :: rest => (pyDigits rest).map (fun n => (n : Int))
  | cs => (pyDigits cs).map (fun n => (n : Int))

/-- The timestamp processing of the loop body:
`d,t = dtime.split(" ")` (raises unless exactly two parts) followed by
`hour_of_day = int(t.split(":")[0])` (raises unless the first colon-part
is an integer literal). -/
def parse_hour (dtime : String) : Except PyError Int :=
  match pySplit ' ' dtime.data with
  | [_, t] =>
    match pyInt ((pySplit ':' t).headD []) with
    | some h => .ok h
    | none => .error .valueError
  | _ => .error .valueError

/-- Which of the four period-of-day counters the `if/elif` chain of the
loop body increments for a given `hour_of_day`. -/
inductive Bucket where
  | night
  | morning
  | afternoon
  | evening
deriving DecidableEq, Repr

/-- The `if/elif` chain of `compute_stats_by_user`, line for line:
`< 5` night, `elif < 12` morning, `elif < 17` afternoon, `elif < 22`
evening, `else` night. -/
def classify_hour (hour_of_day : Int) : Bucket :=
  if hour_of_day < 5 then .night
  else if hour_of_day < 12 then .morning
  else if hour_of_day < 17 then .afternoon
  else if hour_of_day < 22 then .evening
  else .night

/-- The local variables of `compute_stats_by_user`, in initialisation
order: `mcount = morning = afternoon = evening = night = 0`,
`tracklist = []`. -/
structure UserStats where
  mcount : Int
  morning : Int
  afternoon : Int
  evening : Int
  night : Int
  tracklist : List Int
deriving DecidableEq, Repr

/-- Increment of the counter selected by the `if/elif` chain (the
`night += 1` / `morning += 1` / `afternoon += 1` / `evening += 1`
statements of the loop body). -/
def bucket_incr (s : UserStats) : Bucket → UserStats
  | .night => { s with night := s.night + 1 }
  | .morning => { s with morning := s.morning + 1 }
  | .afternoon => { s with afternoon := s.afternoon + 1 }
  | .evening => { s with evening := s.evening + 1 }

/-- The body of the `for` loop of `compute_stats_by_user`, up to (and not
including) its `return` statement: conditional append of `trackid` to
`tracklist`, timestamp parsing (which can raise), `mcount += mobile`, and
the `if/elif` chain incrementing exactly one period counter. -/
def stats_step (s : UserStats) (t : Track) : Except PyError UserStats :=
  let tracklist :=
    if s.tracklist.contains t.trackid then s.tracklist
    else s.tracklist ++ [t.trackid]
  match parse_hour t.dtime with
  | .error e => .error e
  | .ok hour_of_day =>
    .ok (bucket_incr { s with mcount := s.mcount + t.mobile, tracklist := tracklist }
      (classify_hour hour_of_day))

/-- The `return` value of the loop body:
`[len(tracklist), morning, afternoon, evening, night, mcount]`. -/
def stats_result (s : UserStats) : List Int :=
  [(s.tracklist.length : Int), s.morning, s.afternoon, s.evening, s.night, s.mcount]

/-- The embedded `compute_stats_by_user`.  Because the `return` is the last
statement of the loop body, the loop exits during its first iteration, so
only the head of `tracks` is ever processed; an empty `tracks` skips the
loop and the function falls through, returning Python `None` (embedded as
`Except.ok none`).  An unparsable timestamp raises (embedded as
`Except.error`). -/
def compute_stats_by_user (tracks : List Track) : Except PyError (Option (List Int)) :=
  match tracks with
  | [] => .ok none
  | t :: _ =>
    match stats_step ⟨0, 0, 0, 0, 0, []⟩ t with
    | .error e => .error e
    | .ok s => .ok (some (stats_result s))

/-- The successful outcome of the loop body, as a pure function of the
incoming state, the record and the already-parsed hour. -/
def stats_update (s : UserStats) (t : Track) (hour_of_day : Int) : UserStats :=
  bucket_incr
    { s with mcount := s.mcount + t.mobile,
             tracklist := (if s.tracklist.contains t.trackid then s.tracklist
               else s.tracklist ++ [t.trackid]) }
    (classify_hour hour_of_day)

/-- When the timestamp parses, the loop body succeeds and its outcome is
`stats_update`. -/
lemma stats_step_eq (s : UserStats) (t : Track) (h : Int)
    (hp : parse_hour t.dtime = .ok h) :
    stats_step s t = .ok (stats_update s t h) := by
  unfold stats_step stats_update
  rw [hp]

/-- Hours below 5 take the first branch of the chain. -/
lemma classify_night_lo {h : Int} (h1 : h < 5) : classify_hour h = .night := by
  unfold classify_hour
  rw [if_pos h1]

/-- Hours in [5,12) take the first `elif`. -/
lemma classify_morning {h : Int} (h1 : ¬h < 5) (h2 : h < 12) :
    classify_hour h = .morning := by
  unfold classify_hour
  rw [if_neg h1, if_pos h2]

/-- Hours in [12,17) take the second `elif`. -/
lemma classify_afternoon {h : Int} (h1 : ¬h < 5) (h2 : ¬h < 12) (h3 : h < 17) :
    classify_hour h = .afternoon := by
  unfold classify_hour
  rw [if_neg h1, if_neg h2, if_pos h3]

/-- Hours in [17,22) take the third `elif`. -/
lemma classify_evening {h : Int} (h1 : ¬h < 5) (h2 : ¬h < 12) (h3 : ¬h < 17)
    (h4 : h < 22) : classify_hour h = .evening := by
  unfold classify_hour
  rw [if_neg h1, if_neg h2, if_neg h3, if_pos h4]

/-- Hours at or above 22 take the final `else`. -/
lemma classify_night_hi {h : Int} (h1 : ¬h < 5) (h2 : ¬h < 12) (h3 : ¬h < 17)
    (h4 : ¬h < 22) : classify_hour h = .night := by
  unfold classify_hour
  rw [if_neg h1, if_neg h2, if_neg h3, if_neg h4]

instance {ε α : Type} [DecidableEq ε] [DecidableEq α] : DecidableEq (Except ε α) :=
  fun x y =>
    match x, y with
    | .error a, .error b =>
      if h : a = b then .isTrue (congrArg Except.error h)
      else .isFalse (fun hc => h (Except.error.inj hc))
    | .ok a, .ok b =>
      if h : a = b then .isTrue (congrArg Except.ok h)
      else .isFalse (fun hc => h (Except.ok.inj hc))
    | .error _, .ok _ => .isFalse (fun hc => Except.noConfusion hc)
    | .ok _, .error _ => .isFalse (fun hc => Except.noConfusion hc)

/-- Claim C1 (code bug, evaluation at the failing input): the claim says
the empty group yields the all-zero summary (0,0,0,0,0,0); instead the
`for` loop never runs, the misplaced `return` inside its body is never
reached, and the function falls through returning Python `None` — not the
zero summary. -/
theorem c1_empty_group_returns_none :
    compute_stats_by_user [] = .ok none ∧
    compute_stats_by_user [] ≠ .ok (some [0, 0, 0, 0, 0, 0]) := by decide

/-- Claim C2 (confirmed): because the `return` statement is the last line
of the loop body, every non-empty input produces exactly the summary of
the singleton sequence holding its first record. -/
theorem c2_processes_only_first_record (t : Track) (rest : List Track) :
    compute_stats_by_user (t :: rest) = compute_stats_by_user [t] := rfl

/-- Witness for `c2_processes_only_first_record` on a concrete two-record
group. -/
theorem c2_processes_only_first_record_witness :
    compute_stats_by_user [⟨1, "2014-01-01 03:00:00", 0, "00001"⟩,
        ⟨2, "2014-01-01 09:00:00", 1, "00002"⟩]
      = compute_stats_by_user [⟨1, "2014-01-01 03:00:00", 0, "00001"⟩] :=
  c2_processes_only_first_record ⟨1, "2014-01-01 03:00:00", 0, "00001"⟩
    [⟨2, "2014-01-01 09:00:00", 1, "00002"⟩]

/-- Claim C3 (code bug, evaluation at the failing input): on a two-record
group with well-formed timestamps (hours 9 and 15) the four bucket
counters of the returned summary are 1,0,0,0, summing to 1, not to the
group size 2: only the first record is ever classified. -/
theorem c3_bucket_sum_below_group_size :
    compute_stats_by_user [⟨1, "2014-01-01 09:00:00", 0, "00001"⟩,
        ⟨2, "2014-01-01 15:00:00", 0, "00002"⟩]
      = .ok (some [1, 1, 0, 0, 0, 0]) ∧
    (1 + 0 + 0 + 0 : Int) ≠
      ([(⟨1, "2014-01-01 09:00:00", 0, "00001"⟩ : Track),
        ⟨2, "2014-01-01 15:00:00", 0, "00002"⟩].length : Int) := by decide

/-- Claim C4 (code bug, evaluation at the failing input): the summary
depends only on the first record, so swapping the two records of this
group changes the result — summarisation is not permutation-invariant. -/
theorem c4_not_permutation_invariant :
    compute_stats_by_user [⟨1, "2014-01-01 03:00:00", 0, "00001"⟩,
        ⟨2, "2014-01-01 09:00:00", 1, "00002"⟩]
      = .ok (some [1, 0, 0, 0, 1, 0]) ∧
    compute_stats_by_user [⟨2, "2014-01-01 09:00:00", 1, "00002"⟩,
        ⟨1, "2014-01-01 03:00:00", 0, "00001"⟩]
      = .ok (some [1, 1, 0, 0, 0, 1]) ∧
    compute_stats_by_user [⟨1, "2014-01-01 03:00:00", 0, "00001"⟩,
        ⟨2, "2014-01-01 09:00:00", 1, "00002"⟩]
      ≠ compute_stats_by_user [⟨2, "2014-01-01 09:00:00", 1, "00002"⟩,
        ⟨1, "2014-01-01 03:00:00", 0, "00001"⟩] := by decide

/-- Claim C5 (code bug, evaluation at the failing input): on the spec's
three-record example group the claimed summary is (2,1,0,0,2,2); the code
processes only the first record (hour 3, flag 0) and returns
(1,0,0,0,1,0). -/
theorem c5_example_group_diverges :
    compute_stats_by_user [⟨1, "2014-01-01 03:00:00", 0, "00001"⟩,
        ⟨1, "2014-01-01 09:00:00", 1, "00002"⟩,
        ⟨2, "2014-01-01 23:30:00", 1, "00003"⟩]
      = .ok (some [1, 0, 0, 0, 1, 0]) ∧
    compute_stats_by_user [⟨1, "2014-01-01 03:00:00", 0, "00001"⟩,
        ⟨1, "2014-01-01 09:00:00", 1, "00002"⟩,
        ⟨2, "2014-01-01 23:30:00", 1, "00003"⟩]
      ≠ .ok (some [2, 1, 0, 0, 2, 2]) := by decide

/-- Claim C6 (code bug, evaluation at the failing input): both device
flags of this group lie in {0,1} and sum to 2, yet the mobile counter of
the returned summary is 1 — only the first record's flag is added. -/
theorem c6_mobile_not_sum_of_flags :
    (⟨1, "2014-01-01 09:00:00", 1, "00001"⟩ : Track).mobile ∈ ([0, 1] : List Int) ∧
    (⟨2, "2014-01-01 15:00:00", 1, "00002"⟩ : Track).mobile ∈ ([0, 1] : List Int) ∧
    compute_stats_by_user [⟨1, "2014-01-01 09:00:00", 1, "00001"⟩,
        ⟨2, "2014-01-01 15:00:00", 1, "00002"⟩]
      = .ok (some [1, 1, 0, 0, 0, 1]) ∧
    (1 : Int) ≠ (⟨1, "2014-01-01 09:00:00", 1, "00001"⟩ : Track).mobile
      + (⟨2, "2014-01-01 15:00:00", 1, "00002"⟩ : Track).mobile := by decide

/-- Claim C7 (code bug, evaluation at the failing input): the two track
identifiers 3 and 4 of this group are pairwise distinct, yet the
unique-item count of the returned summary is 1, not the group size 2 —
the "equality iff all identifiers distinct" direction fails. -/
theorem c7_unique_count_stuck_at_one :
    (⟨3, "2014-01-01 10:00:00", 0, "00003"⟩ : Track).trackid
      ≠ (⟨4, "2014-01-01 11:00:00", 0, "00004"⟩ : Track).trackid ∧
    compute_stats_by_user [⟨3, "2014-01-01 10:00:00", 0, "00003"⟩,
        ⟨4, "2014-01-01 11:00:00", 0, "00004"⟩]
      = .ok (some [1, 1, 0, 0, 0, 0]) ∧
    (1 : Int) ≠ ([(⟨3, "2014-01-01 10:00:00", 0, "00003"⟩ : Track),
        ⟨4, "2014-01-01 11:00:00", 0, "00004"⟩].length : Int) := by decide

/-- Claim C8 (confirmed): for every in-range hour 0–23 the `if/elif`
chain classifies by the half-open ranges night [0,5) ∪ [22,24),
morning [5,12), afternoon [12,17), evening [17,22); in particular
hour 5 is morning (not night), 12 afternoon, 17 evening, 22 night,
0 night. -/
theorem c8_bucket_ranges :
    (∀ h : Fin 24,
      (classify_hour h.val = .night ↔ (h.val < 5 ∨ 22 ≤ h.val)) ∧
      (classify_hour h.val = .morning ↔ (5 ≤ h.val ∧ h.val < 12)) ∧
      (classify_hour h.val = .afternoon ↔ (12 ≤ h.val ∧ h.val < 17)) ∧
      (classify_hour h.val = .evening ↔ (17 ≤ h.val ∧ h.val < 22))) ∧
    classify_hour 5 = .morning ∧ classify_hour 5 ≠ .night ∧
    classify_hour 12 = .afternoon ∧ classify_hour 17 = .evening ∧
    classify_hour 22 = .night ∧ classify_hour 0 = .night := by decide

/-- Claim C9 counterexample: on a record whose device flag is 5 ∉ {0,1}
the code signals no error at all; it returns a normal summary whose
mobile counter is 5 — the flag is silently summed in. -/
theorem c9_counterexample_flag_coerced :
    compute_stats_by_user [⟨1, "2014-01-01 03:00:00", 5, "00001"⟩]
      = .ok (some [1, 0, 0, 0, 1, 5]) ∧
    (5 : Int) ∉ ([0, 1] : List Int) := by decide

/-- Claim C9 amended: `compute_stats_by_user` performs no flag
validation: for any first record with a parseable timestamp and ANY
integer device flag, the call returns a summary (never an error), and
its mobile counter (the last field) equals that flag. -/
theorem c9_no_flag_validation (t : Track) (rest : List Track) (h : Int)
    (hp : parse_hour t.dtime = .ok h) :
    ∃ out : List Int, compute_stats_by_user (t :: rest) = .ok (some out) ∧
      out.getLastD 0 = t.mobile := by
  refine ⟨stats_result (stats_update ⟨0, 0, 0, 0, 0, []⟩ t h), ?_, ?_⟩
  · simp only [compute_stats_by_user, stats_step_eq ⟨0, 0, 0, 0, 0, []⟩ t h hp]
  · rcases hc : classify_hour h <;>
      simp [stats_update, bucket_incr, stats_result, hc]

/-- Witness for `c9_no_flag_validation` at the record with flag 5 and
timestamp hour 3. -/
theorem c9_no_flag_validation_witness :
    ∃ out : List Int,
      compute_stats_by_user [⟨1, "2014-01-01 03:00:00", 5, "00001"⟩]
        = .ok (some out) ∧
      out.getLastD 0 = (⟨1, "2014-01-01 03:00:00", 5, "00001"⟩ : Track).mobile :=
  c9_no_flag_validation ⟨1, "2014-01-01 03:00:00", 5, "00001"⟩ [] 3 (by decide)

/-- Claim C10 (confirmed): whenever the timestamp parses to an integer
hour — any integer, also negative or above 23 — the loop body succeeds
and increments exactly one of the four period counters: each counter
grows by 0 or 1, their total grows by exactly 1, any hour below 5 goes to
night via the first branch, and any hour at or above 22 (including
out-of-range values above 23) goes to night via the final `else`. -/
theorem c10_classification_total (s : UserStats) (t : Track) (h : Int)
    (hp : parse_hour t.dtime = .ok h) :
    ∃ s2, stats_step s t = .ok s2 ∧
      s2.morning + s2.afternoon + s2.evening + s2.night
        = s.morning + s.afternoon + s.evening + s.night + 1 ∧
      (s2.morning = s.morning ∨ s2.morning = s.morning + 1) ∧
      (s2.afternoon = s.afternoon ∨ s2.afternoon = s.afternoon + 1) ∧
      (s2.evening = s.evening ∨ s2.evening = s.evening + 1) ∧
      (s2.night = s.night ∨ s2.night = s.night + 1) ∧
      (h < 5 → s2.night = s.night + 1 ∧ s2.morning = s.morning ∧
        s2.afternoon = s.afternoon ∧ s2.evening = s.evening) ∧
      (22 ≤ h → s2.night = s.night + 1 ∧ s2.morning = s.morning ∧
        s2.afternoon = s.afternoon ∧ s2.evening = s.evening) := by
  refine ⟨stats_update s t h, stats_step_eq s t h hp, ?_⟩
  unfold stats_update
  by_cases h1 : h < 5
  · rw [classify_night_lo h1]
    simp only [bucket_incr, implies_true, and_true, true_and, or_true,
      true_or] <;> omega
  · by_cases h2 : h < 12
    · rw [classify_morning h1 h2]
      simp only [bucket_incr, implies_true, and_true, true_and, or_true,
        true_or] <;> omega
    · by_cases h3 : h < 17
      · rw [classify_afternoon h1 h2 h3]
        simp only [bucket_incr, implies_true, and_true, true_and, or_true,
          true_or] <;> omega
      · by_cases h4 : h < 22
        · rw [classify_evening h1 h2 h3 h4]
          simp only [bucket_incr, implies_true, and_true, true_and, or_true,
            true_or] <;> omega
        · rw [classify_night_hi h1 h2 h3 h4]
          simp only [bucket_incr, implies_true, and_true, true_and, or_true,
            true_or] <;> omega

/-- Witness for `c10_classification_total` at the zero state and an
hour-23 record, whose hour 23 is at or above 22 and lands in night. -/
theorem c10_classification_total_witness :
    ∃ s2, stats_step ⟨0, 0, 0, 0, 0, []⟩ ⟨2, "2014-01-01 23:30:00", 1, "00003"⟩
        = .ok s2 ∧
      s2.morning + s2.afternoon + s2.evening + s2.night
        = (⟨0, 0, 0, 0, 0, []⟩ : UserStats).morning
          + (⟨0, 0, 0, 0, 0, []⟩ : UserStats).afternoon
          + (⟨0, 0, 0, 0, 0, []⟩ : UserStats).evening
          + (⟨0, 0, 0, 0, 0, []⟩ : UserStats).night + 1 ∧
      (s2.morning = (⟨0, 0, 0, 0, 0, []⟩ : UserStats).morning ∨
        s2.morning = (⟨0, 0, 0, 0, 0, []⟩ : UserStats).morning + 1) ∧
      (s2.afternoon = (⟨0, 0, 0, 0, 0, []⟩ : UserStats).afternoon ∨
        s2.afternoon = (⟨0, 0, 0, 0, 0, []⟩ : UserStats).afternoon + 1) ∧
      (s2.evening = (⟨0, 0, 0, 0, 0, []⟩ : UserStats).evening ∨
        s2.evening = (⟨0, 0, 0, 0, 0, []⟩ : UserStats).evening + 1) ∧
      (s2.night = (⟨0, 0, 0, 0, 0, []⟩ : UserStats).night ∨
        s2.night = (⟨0, 0, 0, 0, 0, []⟩ : UserStats).night + 1) ∧
      ((23 : Int) < 5 → s2.night = (⟨0, 0, 0, 0, 0, []⟩ : UserStats).night + 1 ∧
        s2.morning = (⟨0, 0, 0, 0, 0, []⟩ : UserStats).morning ∧
        s2.afternoon = (⟨0, 0, 0, 0, 0, []⟩ : UserStats).afternoon ∧
        s2.evening = (⟨0, 0, 0, 0, 0, []⟩ : UserStats).evening) ∧
      ((22 : Int) ≤ 23 → s2.night = (⟨0, 0, 0, 0, 0, []⟩ : UserStats).night + 1 ∧
        s2.morning = (⟨0, 0, 0, 0, 0, []⟩ : UserStats).morning ∧
        s2.afternoon = (⟨0, 0, 0, 0, 0, []⟩ : UserStats).afternoon ∧
        s2.evening = (⟨0, 0, 0, 0, 0, []⟩ : UserStats).evening) :=
  c10_classification_total ⟨0, 0, 0, 0, 0, []⟩ ⟨2, "2014-01-01 23:30:00", 1, "00003"⟩
    23 (by decide)
